import Mathlib

/-!
Verification of the PuLID-FLUX gradio application (`app.py`).

The development shallowly embeds the request pipeline of `generate_image`
(`app.py`, lines 41-149) together with the session state held by the
module-level `FluxGenerator` (lines 25-39).  Numerical models (the T5/CLIP
text encoders, the flow model, the autoencoder and the identity extractor)
are opaque collaborators: they are represented by abstract functions in an
`Env` record, and a latent tensor is represented by the value such a
function produces.  Library functions that `app.py` calls but whose code is
not part of `src/` (`denoise`, `get_schedule`, `resize_numpy_image_long`,
`PuLIDPipeline.get_id_embedding`) are modelled from the specification; each
such definition says so in its doc comment.

`generate_image` returns, besides the pixel bytes and the echoed seed, the
values of its observable local bindings (`inp_neg`, `id_embeddings`,
`uncond_id_embeddings`, the resolved seed, the noise tensor, the arguments
forwarded to `denoise`) and a trace of the relocation and stage events, so
that the theorems below can speak about them.
-/

/-- Device placement of a model handle: accelerator (`cuda`) or host (`cpu`). -/
inductive Device
  | cuda
  | cpu
deriving DecidableEq

/-- A model handle: a device placement plus an opaque payload (`params`)
standing for everything else the handle holds (weights, buffers, config). -/
structure Handle where
  device : Device
  params : ℕ
deriving DecidableEq

/-- The T5 text-encoder handle.  Besides the device placement and opaque
payload it exposes the `max_length` attribute that `generate_image`
assigns on line 57 of `app.py`. -/
structure T5Handle where
  device : Device
  max_length : ℕ
  params : ℕ
deriving DecidableEq

/-- The mutable state of the module-level `FluxGenerator` singleton:
the `offload` flag and the four model handles whose device placement the
offload branches toggle (`ae_decoder` stands for `ae.decoder`). -/
structure FluxState where
  offload : Bool
  t5 : T5Handle
  clip : Handle
  model : Handle
  ae_decoder : Handle
deriving DecidableEq

/-- `get_models` (`app.py` lines 16-22): the T5 and CLIP encoders are loaded
onto `device`; the flow model and the autoencoder are loaded onto the CPU
when `offload` is set and onto `device` otherwise.  `load_t5` is called
with `max_length=128`.  The opaque payloads are passed in. -/
def get_models (device : Device) (offload : Bool) (t5p clipp mp aep : ℕ) :
    T5Handle × Handle × Handle × Handle :=
  (⟨device, 128, t5p⟩,
   ⟨device, clipp⟩,
   ⟨if offload then Device.cpu else device, mp⟩,
   ⟨if offload then Device.cpu else device, aep⟩)

/-- `FluxGenerator.__init__` (`app.py` lines 26-36): the device is `cuda`,
the `offload` flag is hard-coded to `False` (line 28), and the models are
loaded once via `get_models`. -/
def FluxGenerator.init (t5p clipp mp aep : ℕ) : FluxState :=
  let offload := false
  let ms := get_models Device.cuda offload t5p clipp mp aep
  { offload := offload
    t5 := ms.1
    clip := ms.2.1
    model := ms.2.2.1
    ae_decoder := ms.2.2.2 }

/-- A Conditioning Bundle as produced by `prepare`: text embedding, text
position ids and pooled vector embedding, each abstracted to a scalar. -/
structure Bundle where
  txt : ℚ
  txt_ids : ℚ
  vec : ℚ
deriving DecidableEq

/-- The denoiser model, abstracted: one evaluation maps the current latent,
a conditioning bundle, the current timestep, the guidance scale and an
optional identity argument (embedding together with its scalar weight) to
a velocity prediction. -/
structure DenoiserModel where
  eval : ℚ → Bundle → ℚ → ℚ → Option (ℚ × ℚ) → ℚ

/-- The environment of opaque collaborators used by one request:
the text-conditioning preparer (taking the T5 `max_length`, the latent and
the prompt), the noise generator (taking height, width and the seed), the
denoiser, the latent decoder (producing the list of pixel values), the two
halves of the identity extractor, the latent token count, the value the
fresh CPU `torch.Generator().seed()` call would draw (a non-negative
integer), and the extractor's debug-image count. -/
structure Env where
  prepareF : ℕ → ℚ → String → Bundle
  getNoiseF : ℕ → ℕ → ℤ → ℚ
  model : DenoiserModel
  decodeF : ℚ → List ℚ
  condEmbF : ℕ × ℕ → ℚ
  uncondEmbF : ℕ × ℕ → ℚ
  seqLenF : ℕ → ℕ → ℕ
  freshSeed : ℕ
  debugImgs : ℕ

/-- Names of the relocatable handles, for the event trace. -/
inductive HName
  | t5
  | clip
  | model
  | aeDecoder
deriving DecidableEq

/-- One event of a request: a device relocation of a handle, a conditioning
preparation for a prompt, the denoising stage, or the decoding stage. -/
inductive Ev
  | move (h : HName) (d : Device)
  | prepareEv (prompt : String)
  | denoiseEv
  | decodeEv
deriving DecidableEq

/-- The result of one `generate_image` request: the pixel bytes of the
returned image, the echoed seed string, the debug-image count, the values
of the observable local bindings of the Python function (`inp_neg`,
`id_embeddings`, `uncond_id_embeddings`, the negative-conditioning triple
and CFG start step forwarded to `denoise`, the `denoise` output, the
resolved seed, the noise latent), and the relocation/stage trace. -/
structure GenResult where
  img : List ℤ
  seed_str : String
  debug_img_count : ℕ
  negBundle : Option Bundle
  idEmb : Option ℚ
  uncondIdEmb : Option ℚ
  denoiseNeg : Option ℚ × Option ℚ × Option ℚ
  denoiseCfgStart : ℕ
  denoiseOut : ℚ
  resolvedSeed : ℤ
  noise : ℚ
  trace : List Ev
deriving DecidableEq

/-- The parameters of `generate_image` (`app.py` lines 42-55).  A raster
image is abstracted to its (height, width) pair. -/
structure GenArgs where
  width : ℕ
  height : ℕ
  num_steps : ℕ
  start_step : ℕ
  guidance : ℚ
  seed : ℤ
  prompt : String
  id_image : Option (ℕ × ℕ)
  id_weight : ℚ
  neg_prompt : String
  true_cfg : ℚ
  timestep_to_start_cfg : ℕ
  max_sequence_length : ℕ

/-- `use_true_cfg = abs(true_cfg - 1.0) > 1e-2` (`app.py` line 77). -/
def use_true_cfg (true_cfg : ℚ) : Bool :=
  decide (1/100 < |true_cfg - 1|)

/-- Modelled from the spec: `resize_numpy_image_long` (from `pulid.utils`,
absent from `src/`).  The reference image, abstracted to its
(height, width), is "resized to a bounded long-edge dimension before
extraction": an image whose long edge already fits is returned unchanged,
otherwise both edges are scaled down proportionally (integer floor). -/
def resize_numpy_image_long (img : ℕ × ℕ) (resize_long_edge : ℕ) : ℕ × ℕ :=
  if max img.1 img.2 ≤ resize_long_edge then img
  else (img.1 * resize_long_edge / max img.1 img.2,
        img.2 * resize_long_edge / max img.1 img.2)

/-- Modelled from the spec: `PuLIDPipeline.get_id_embedding` (from
`pulid.pipeline_flux`, absent from `src/`).  Given a reference face image
and the flag `cal_uncond`, it "returns a conditional identity embedding,
and, only if `cal_uncond` is true, an unconditional counterpart; otherwise
the second value is absent (not a placeholder)". -/
def get_id_embedding (env : Env) (img : ℕ × ℕ) (cal_uncond : Bool) :
    ℚ × Option ℚ :=
  (env.condEmbF img, if cal_uncond then some (env.uncondEmbF img) else none)

/-- Modelled from the spec: the warp factor of the "shift" of the timestep
schedule, "a function of the latent's token count"; it is at least 1 and
grows with the token count, "biasing more steps toward the high-noise
region for larger images". -/
def shift_factor (seqLen : ℕ) : ℚ := 1 + seqLen

/-- Modelled from the spec: the warp applied to one timestep when `shift`
is enabled.  It is a strictly increasing bijection of (0, 1] onto itself
for every factor `m ≥ 1`, pushing timesteps toward 1 for large `m`. -/
def time_shift (m t : ℚ) : ℚ := m * t / (m * t + (1 - t))

/-- Modelled from the spec: the unwarped timestep grid, "a strictly
decreasing sequence of `num_steps + 1` timestep values in (0, 1]". -/
def base_schedule (num_steps : ℕ) : List ℚ :=
  (List.range (num_steps + 1)).map
    (fun i => ((num_steps + 1 - i : ℕ) : ℚ) / ((num_steps : ℚ) + 1))

/-- Modelled from the spec: `get_schedule` (from `flux.sampling`, absent
from `src/`).  It produces the timestep grid, "whose spacing is optionally
warped (shift) as a function of the latent's token count". -/
def get_schedule (num_steps seqLen : ℕ) (shift : Bool) : List ℚ :=
  (base_schedule num_steps).map
    (fun t => if shift then time_shift (shift_factor seqLen) t else t)

/-- One positive (or negative) denoiser evaluation of the loop of §4.4 of
the spec: at step index `i` the call receives the identity argument
`(embedding, id_weight)` exactly when `start_step ≤ i` and the embedding
is present; "before `start_step`, identity conditioning must be entirely
absent from the call". -/
def denoise_step (M : DenoiserModel) (bundle : Bundle) (guidance : ℚ)
    (id : Option ℚ) (id_weight : ℚ) (start_step : ℕ)
    (img : ℚ) (i : ℕ) (tCurr : ℚ) : ℚ :=
  M.eval img bundle tCurr guidance
    (if start_step ≤ i then id.map (fun e => (e, id_weight)) else none)

/-- Modelled from the spec: `denoise` (from `flux.sampling` as extended by
PuLID, absent from `src/`), the state machine of §4.4.  It iterates the
consecutive timestep pairs in order; each step evaluates the denoiser on
the positive conditioning; if true CFG is active (|true_cfg − 1| > 0.01)
and the step index is at least `timestep_to_start_cfg` it additionally
evaluates the denoiser on the negative conditioning and the unconditional
identity embedding and combines
`neg + true_cfg * (pos - neg)`; the latent then advances by
`(t_next - t_curr) * prediction` (Euler-style explicit update).  The three
negative-conditioning components arrive as options; they are only read
inside the active-CFG branch. -/
def denoise (M : DenoiserModel) (img0 : ℚ) (bundle : Bundle)
    (timesteps : List ℚ) (guidance : ℚ) (id : Option ℚ) (id_weight : ℚ)
    (start_step : ℕ) (uncond_id : Option ℚ) (true_cfg : ℚ)
    (timestep_to_start_cfg : ℕ)
    (neg_txt neg_txt_ids neg_vec : Option ℚ) : ℚ :=
  let negBundle : Bundle := ⟨neg_txt.getD 0, neg_txt_ids.getD 0, neg_vec.getD 0⟩
  ((timesteps.zip timesteps.tail).enum).foldl
    (fun img p =>
      let pos := denoise_step M bundle guidance id id_weight start_step
        img p.1 p.2.1
      let pred :=
        if use_true_cfg true_cfg ∧ timestep_to_start_cfg ≤ p.1 then
          let neg := denoise_step M negBundle guidance uncond_id id_weight
            start_step img p.1 p.2.1
          neg + true_cfg * (pos - neg)
        else pos
      img + (p.2.2 - p.2.1) * pred)
    img0

/-- The positive-only denoising loop: the loop of §4.4 with the true-CFG
branch never taken (the "fake-CFG, guidance-scale-only" path). -/
def denoise_pos_only (M : DenoiserModel) (img0 : ℚ) (bundle : Bundle)
    (timesteps : List ℚ) (guidance : ℚ) (id : Option ℚ) (id_weight : ℚ)
    (start_step : ℕ) : ℚ :=
  ((timesteps.zip timesteps.tail).enum).foldl
    (fun img p =>
      img + (p.2.2 - p.2.1) *
        denoise_step M bundle guidance id id_weight start_step img p.1 p.2.1)
    img0

/-- `generate_image` (`app.py` lines 41-149) as a function of the opaque
environment, the request arguments and the current `FluxGenerator` state.
Line numbers in the comments refer to `app.py`. -/
def generate_image (env : Env) (a : GenArgs) (s0 : FluxState) :
    GenResult × FluxState :=
  -- line 57: flux_generator.t5.max_length = max_sequence_length
  let s := { s0 with t5.max_length := a.max_sequence_length }
  -- lines 59-61 and 72-73: -1 means the seed is drawn fresh by
  -- torch.Generator(device="cpu").seed(), which is non-negative
  let resolvedSeed : ℤ := if a.seed = -1 then (env.freshSeed : ℤ) else a.seed
  -- line 77
  let useCfg := use_true_cfg a.true_cfg
  -- lines 79-84
  let resized := a.id_image.map (fun im => resize_numpy_image_long im 1024)
  let embPair := resized.map (fun im => get_id_embedding env im useCfg)
  let id_embeddings : Option ℚ := embPair.map Prod.fst
  let uncond_id_embeddings : Option ℚ := (embPair.map Prod.snd).join
  -- lines 89-96
  let x := env.getNoiseF a.height a.width resolvedSeed
  -- lines 98-102
  let timesteps := get_schedule a.num_steps (env.seqLenF a.height a.width) true
  -- lines 104-105
  let s1 := if s.offload
    then { s with t5.device := Device.cuda, clip.device := Device.cuda }
    else s
  let tr1 : List Ev := if s.offload
    then [.move .t5 .cuda, .move .clip .cuda] else []
  -- lines 106-107
  let inp := env.prepareF s1.t5.max_length x a.prompt
  let inp_neg : Option Bundle :=
    if useCfg then some (env.prepareF s1.t5.max_length x a.neg_prompt)
    else none
  let trPrep : List Ev :=
    [.prepareEv a.prompt] ++ (if useCfg then [.prepareEv a.neg_prompt] else [])
  -- lines 110-113
  let s2 := if s1.offload
    then { s1 with t5.device := Device.cpu, clip.device := Device.cpu,
                   model.device := Device.cuda }
    else s1
  let tr2 : List Ev := if s1.offload
    then [.move .t5 .cpu, .move .clip .cpu, .move .model .cuda] else []
  -- lines 116-123
  let neg_txt := inp_neg.map Bundle.txt
  let neg_txt_ids := inp_neg.map Bundle.txt_ids
  let neg_vec := inp_neg.map Bundle.vec
  let xOut := denoise env.model x inp timesteps a.guidance id_embeddings
    a.id_weight a.start_step uncond_id_embeddings a.true_cfg
    a.timestep_to_start_cfg neg_txt neg_txt_ids neg_vec
  -- lines 126-129
  let s3 := if s2.offload
    then { s2 with model.device := Device.cpu,
                   ae_decoder.device := Device.cuda }
    else s2
  let tr3 : List Ev := if s2.offload
    then [.move .model .cpu, .move .aeDecoder .cuda] else []
  -- lines 132-134: unpack only reshapes; decoding is modelled by decodeF
  let pixels := env.decodeF xOut
  -- lines 136-138
  let s4 := if s3.offload then { s3 with ae_decoder.device := Device.cpu }
    else s3
  let tr4 : List Ev := if s3.offload then [.move .aeDecoder .cpu] else []
  -- lines 144-148: clamp to [-1, 1], rescale by 127.5 * (x + 1), cast to bytes
  let bytes := pixels.map
    (fun v => Int.floor ((255/2 : ℚ) * (max (-1) (min 1 v) + 1)))
  ({ img := bytes
     seed_str := toString resolvedSeed
     debug_img_count := env.debugImgs
     negBundle := inp_neg
     idEmb := id_embeddings
     uncondIdEmb := uncond_id_embeddings
     denoiseNeg := (neg_txt, neg_txt_ids, neg_vec)
     denoiseCfgStart := a.timestep_to_start_cfg
     denoiseOut := xOut
     resolvedSeed := resolvedSeed
     noise := x
     trace := tr1 ++ trPrep ++ tr2 ++ [.denoiseEv] ++ tr3 ++ [.decodeEv] ++ tr4 },
   s4)

/-- A concrete environment for witnesses: the denoiser echoes its latent,
the decoder yields the single pixel value 2 (which the clamp maps to 1). -/
def envEx : Env :=
  { prepareF := fun _ _ _ => ⟨0, 0, 0⟩
    getNoiseF := fun _ _ _ => 0
    model := ⟨fun img _ _ _ _ => img⟩
    decodeF := fun _ => [2]
    condEmbF := fun _ => 0
    uncondEmbF := fun _ => 1
    seqLenF := fun hgt wdt => hgt * wdt / 16
    freshSeed := 42
    debugImgs := 0 }

/-- Concrete request arguments for witnesses: no reference image, fake CFG. -/
def argsEx : GenArgs :=
  { width := 896
    height := 1152
    num_steps := 4
    start_step := 0
    guidance := 4
    seed := 77
    prompt := "portrait, color, cinematic"
    id_image := none
    id_weight := 1
    neg_prompt := "bad quality, worst quality"
    true_cfg := 1
    timestep_to_start_cfg := 1
    max_sequence_length := 512 }

/-- Concrete request arguments with the random-seed sentinel. -/
def argsSeedEx : GenArgs := { argsEx with seed := -1 }

/-- Concrete request arguments with a reference image whose long edge
exceeds the 1024 bound. -/
def argsImgEx : GenArgs := { argsEx with id_image := some (2048, 1024) }

/-- A concrete startup state, as built by `FluxGenerator.__init__`. -/
def stEx : FluxState := FluxGenerator.init 0 1 2 3

/-- The startup state with the offload policy enabled. -/
def stOnEx : FluxState := { stEx with offload := true }

/-- Whether an event is a device relocation. -/
def Ev.isMove : Ev → Bool
  | .move _ _ => true
  | _ => false

/-- The true-CFG gate of line 77 fires exactly when the scale is more than
0.01 away from 1. -/
theorem use_true_cfg_eq_true_iff (tc : ℚ) :
    use_true_cfg tc = true ↔ 1/100 < |tc - 1| := by
  simp [use_true_cfg]

/-- The true-CFG gate of line 77 is off exactly when the scale is within
0.01 of 1. -/
theorem use_true_cfg_eq_false_iff (tc : ℚ) :
    use_true_cfg tc = false ↔ |tc - 1| ≤ 1/100 := by
  simp [use_true_cfg]

/-- When the true-CFG gate is off, the denoising loop coincides with the
positive-only loop: the negative pass is never evaluated. -/
theorem denoise_eq_pos_only (M : DenoiserModel) (img0 : ℚ) (bundle : Bundle)
    (timesteps : List ℚ) (guidance : ℚ) (id : Option ℚ) (id_weight : ℚ)
    (start_step : ℕ) (uncond_id : Option ℚ) (true_cfg : ℚ) (k : ℕ)
    (nt nti nv : Option ℚ) (h : use_true_cfg true_cfg = false) :
    denoise M img0 bundle timesteps guidance id id_weight start_step
        uncond_id true_cfg k nt nti nv
      = denoise_pos_only M img0 bundle timesteps guidance id id_weight
        start_step := by
  simp only [denoise, denoise_pos_only]
  apply List.foldl_ext
  intro acc p _
  simp [h]

/-- With no identity embedding and no unconditional identity embedding,
the denoising loop does not depend on `start_step` or `id_weight`. -/
theorem denoise_id_none (M : DenoiserModel) (img0 : ℚ) (bundle : Bundle)
    (timesteps : List ℚ) (guidance : ℚ) (w1 w2 : ℚ) (ss1 ss2 : ℕ)
    (true_cfg : ℚ) (k : ℕ) (nt nti nv : Option ℚ) :
    denoise M img0 bundle timesteps guidance none w1 ss1 none true_cfg k
        nt nti nv
      = denoise M img0 bundle timesteps guidance none w2 ss2 none true_cfg k
        nt nti nv := by
  simp only [denoise]
  apply List.foldl_ext
  intro acc p _
  simp [denoise_step, ite_self]

/-- The unwarped grid has `num_steps + 1` entries. -/
theorem base_schedule_length (n : ℕ) : (base_schedule n).length = n + 1 := by
  simp [base_schedule]

/-- The schedule has `num_steps + 1` entries. -/
theorem get_schedule_length (n L : ℕ) (sh : Bool) :
    (get_schedule n L sh).length = n + 1 := by
  simp [get_schedule, base_schedule]

/-- Every entry of the unwarped grid lies in (0, 1]. -/
theorem base_schedule_mem (n : ℕ) (t : ℚ) (ht : t ∈ base_schedule n) :
    0 < t ∧ t ≤ 1 := by
  simp only [base_schedule, List.mem_map, List.mem_range] at ht
  obtain ⟨i, hi, rfl⟩ := ht
  have hd : (0 : ℚ) < (n : ℚ) + 1 := by positivity
  constructor
  · apply div_pos _ hd
    have hn : 0 < n + 1 - i := by omega
    exact_mod_cast hn
  · rw [div_le_one hd]
    have hn : n + 1 - i ≤ n + 1 := by omega
    calc ((n + 1 - i : ℕ) : ℚ) ≤ ((n + 1 : ℕ) : ℚ) := by exact_mod_cast hn
      _ = (n : ℚ) + 1 := by push_cast; ring

/-- The unwarped grid is strictly decreasing. -/
theorem base_schedule_sorted (n : ℕ) :
    (base_schedule n).Pairwise (· > ·) := by
  rw [base_schedule, List.pairwise_map]
  apply (List.pairwise_lt_range (n + 1)).imp_of_mem
  intro i j hi hj hij
  rw [List.mem_range] at hi hj
  have hd : (0 : ℚ) < (n : ℚ) + 1 := by positivity
  have hn : n + 1 - j < n + 1 - i := by omega
  have hQ : ((n + 1 - j : ℕ) : ℚ) < ((n + 1 - i : ℕ) : ℚ) := by exact_mod_cast hn
  exact div_lt_div_of_pos_right hQ hd

/-- The denominator of the warp is positive on (0, 1] for factors ≥ 1. -/
theorem time_shift_denom_pos (m t : ℚ) (hm : 1 ≤ m) (ht : 0 < t) :
    0 < m * t + (1 - t) := by
  nlinarith [mul_nonneg (by linarith : (0:ℚ) ≤ m - 1) ht.le]

/-- The warp keeps timesteps positive. -/
theorem time_shift_pos (m t : ℚ) (hm : 1 ≤ m) (ht : 0 < t) :
    0 < time_shift m t := by
  have hd := time_shift_denom_pos m t hm ht
  exact div_pos (by nlinarith) hd

/-- The warp keeps timesteps at most 1. -/
theorem time_shift_le_one (m t : ℚ) (hm : 1 ≤ m) (ht : 0 < t) (ht1 : t ≤ 1) :
    time_shift m t ≤ 1 := by
  have hd := time_shift_denom_pos m t hm ht
  rw [time_shift, div_le_one hd]
  nlinarith

/-- The warp is strictly increasing on positive timesteps. -/
theorem time_shift_strictMono (m t1 t2 : ℚ) (hm : 1 ≤ m) (h1 : 0 < t1)
    (h2 : 0 < t2) (h12 : t1 < t2) :
    time_shift m t1 < time_shift m t2 := by
  have hd1 := time_shift_denom_pos m t1 hm h1
  have hd2 := time_shift_denom_pos m t2 hm h2
  rw [time_shift, time_shift, div_lt_div_iff₀ hd1 hd2]
  nlinarith [mul_lt_mul_of_pos_left h12 (by linarith : (0:ℚ) < m)]

/-- The warp factor is at least 1. -/
theorem one_le_shift_factor (L : ℕ) : 1 ≤ shift_factor L := by
  simp only [shift_factor]
  have : (0 : ℚ) ≤ (L : ℚ) := Nat.cast_nonneg L
  linarith

/-- Every entry of the schedule lies in (0, 1], shifted or not. -/
theorem get_schedule_mem (n L : ℕ) (sh : Bool) (t : ℚ)
    (ht : t ∈ get_schedule n L sh) : 0 < t ∧ t ≤ 1 := by
  simp only [get_schedule, List.mem_map] at ht
  obtain ⟨u, hu, rfl⟩ := ht
  obtain ⟨hu0, hu1⟩ := base_schedule_mem n u hu
  cases sh with
  | false => simpa using ⟨hu0, hu1⟩
  | true =>
    simp only [if_true]
    exact ⟨time_shift_pos _ _ (one_le_shift_factor L) hu0,
           time_shift_le_one _ _ (one_le_shift_factor L) hu0 hu1⟩

/-- The schedule is strictly decreasing, shifted or not. -/
theorem get_schedule_sorted (n L : ℕ) (sh : Bool) :
    (get_schedule n L sh).Pairwise (· > ·) := by
  rw [get_schedule, List.pairwise_map]
  apply (base_schedule_sorted n).imp_of_mem
  intro a b ha hb hab
  obtain ⟨ha0, _⟩ := base_schedule_mem n a ha
  obtain ⟨hb0, _⟩ := base_schedule_mem n b hb
  cases sh with
  | false => simpa using hab
  | true =>
    simp only [if_true]
    exact time_shift_strictMono _ _ _ (one_le_shift_factor L) hb0 ha0 hab

/-- The long edge of a resized image never exceeds the bound. -/
theorem resize_numpy_image_long_bound (img : ℕ × ℕ) (L : ℕ) :
    max (resize_numpy_image_long img L).1 (resize_numpy_image_long img L).2
      ≤ L := by
  by_cases h : max img.1 img.2 ≤ L
  · simp [resize_numpy_image_long, h]
  · have hm : 0 < max img.1 img.2 := by omega
    have h1 : img.1 * L / max img.1 img.2 ≤ L := by
      calc img.1 * L / max img.1 img.2
          ≤ max img.1 img.2 * L / max img.1 img.2 :=
            Nat.div_le_div_right (Nat.mul_le_mul_right L (le_max_left _ _))
        _ = L := Nat.mul_div_cancel_left L hm
    have h2 : img.2 * L / max img.1 img.2 ≤ L := by
      calc img.2 * L / max img.1 img.2
          ≤ max img.1 img.2 * L / max img.1 img.2 :=
            Nat.div_le_div_right (Nat.mul_le_mul_right L (le_max_right _ _))
        _ = L := Nat.mul_div_cancel_left L hm
    simp only [resize_numpy_image_long, h, if_false]
    exact max_le h1 h2

/-- A clamped-and-rescaled pixel value yields a byte in [0, 255]. -/
theorem clamp_byte_bounds (v : ℚ) :
    0 ≤ Int.floor ((255/2 : ℚ) * (max (-1) (min 1 v) + 1))
    ∧ Int.floor ((255/2 : ℚ) * (max (-1) (min 1 v) + 1)) ≤ 255 := by
  have h1 : (-1 : ℚ) ≤ max (-1) (min 1 v) := le_max_left _ _
  have h2 : max (-1) (min 1 v) ≤ 1 := max_le (by norm_num) (min_le_left _ _)
  constructor
  · apply Int.le_floor.mpr
    push_cast
    nlinarith
  · have hb : (255/2 : ℚ) * (max (-1) (min 1 v) + 1) ≤ ((255 : ℤ) : ℚ) := by
      push_cast
      nlinarith
    calc Int.floor ((255/2 : ℚ) * (max (-1) (min 1 v) + 1))
        ≤ Int.floor (((255 : ℤ) : ℚ)) := Int.floor_le_floor hb
      _ = 255 := Int.floor_intCast 255

/-- C2: for every request the echoed seed string is the decimal rendering of
the resolved seed, the noise generator is invoked with that same resolved
seed, an input seed of -1 resolves to the freshly drawn non-negative value,
and any other input seed passes through unchanged. -/
theorem claim_C2_seed (env : Env) (a : GenArgs) (s : FluxState) :
    (generate_image env a s).1.seed_str
        = toString ((generate_image env a s).1.resolvedSeed)
    ∧ (generate_image env a s).1.noise
        = env.getNoiseF a.height a.width ((generate_image env a s).1.resolvedSeed)
    ∧ (a.seed = -1 →
        (generate_image env a s).1.resolvedSeed = (env.freshSeed : ℤ)
        ∧ 0 ≤ (generate_image env a s).1.resolvedSeed)
    ∧ (a.seed ≠ -1 → (generate_image env a s).1.resolvedSeed = a.seed) := by
  refine ⟨rfl, rfl, fun h => ?_, fun h => ?_⟩
  · constructor
    · simp [generate_image, h]
    · simp [generate_image, h]
  · simp [generate_image, h]

/-- C2 witness: a concrete request with the -1 sentinel resolves to the
fresh draw. -/
theorem claim_C2_seed_witness :
    (generate_image envEx argsSeedEx stEx).1.resolvedSeed = (envEx.freshSeed : ℤ)
    ∧ 0 ≤ (generate_image envEx argsSeedEx stEx).1.resolvedSeed :=
  (claim_C2_seed envEx argsSeedEx stEx).2.2.1 rfl

/-- C3: the conditional identity embedding is present exactly when a
reference image is supplied; the unconditional one is present exactly when
a reference image is supplied and the true-CFG gate (which the caller
passes as `cal_uncond`) is active; with no reference image both are `none`. -/
theorem claim_C3_id_embeddings (env : Env) (a : GenArgs) (s : FluxState) :
    ((generate_image env a s).1.idEmb.isSome ↔ a.id_image.isSome)
    ∧ ((generate_image env a s).1.uncondIdEmb.isSome
        ↔ a.id_image.isSome ∧ use_true_cfg a.true_cfg = true)
    ∧ (a.id_image = none →
        (generate_image env a s).1.idEmb = none
        ∧ (generate_image env a s).1.uncondIdEmb = none) := by
  cases hi : a.id_image with
  | none => simp [generate_image, hi]
  | some im =>
    cases hc : use_true_cfg a.true_cfg <;>
      simp [generate_image, get_id_embedding, hi, hc]

/-- C3 witness: a concrete request without a reference image yields two
absent embeddings. -/
theorem claim_C3_id_embeddings_witness :
    (generate_image envEx argsEx stEx).1.idEmb = none
    ∧ (generate_image envEx argsEx stEx).1.uncondIdEmb = none :=
  (claim_C3_id_embeddings envEx argsEx stEx).2.2 rfl

/-- C5: for `num_steps ≥ 1` the timestep schedule has exactly
`num_steps + 1` entries, is strictly decreasing, and every entry lies in
(0, 1], with or without the shift warp. -/
theorem claim_C5_schedule (num_steps seqLen : ℕ) (shift : Bool)
    (_h : 1 ≤ num_steps) :
    (get_schedule num_steps seqLen shift).length = num_steps + 1
    ∧ (get_schedule num_steps seqLen shift).Pairwise (· > ·)
    ∧ ∀ t ∈ get_schedule num_steps seqLen shift, 0 < t ∧ t ≤ 1 :=
  ⟨get_schedule_length _ _ _, get_schedule_sorted _ _ _,
   fun t ht => get_schedule_mem _ _ _ t ht⟩

/-- C5 witness: the shifted schedule for one step over a token count of 4
is the two-element strictly decreasing list containing 5/6. -/
theorem claim_C5_schedule_witness :
    (get_schedule 1 4 true).length = 2
    ∧ (get_schedule 1 4 true).Pairwise (· > ·)
    ∧ (0 < (5/6 : ℚ) ∧ (5/6 : ℚ) ≤ 1) := by
  obtain ⟨h1, h2, h3⟩ := claim_C5_schedule 1 4 true (by norm_num)
  refine ⟨h1, h2, h3 (5/6) ?_⟩
  norm_num [get_schedule, base_schedule, time_shift, shift_factor,
    List.range_succ]

/-- C6: the returned bytes are exactly the decoded pixel values clamped to
[-1, 1] and rescaled by 127.5 * (x + 1), and every byte lies in [0, 255]. -/
theorem claim_C6_bytes (env : Env) (a : GenArgs) (s : FluxState) :
    (generate_image env a s).1.img
      = (env.decodeF ((generate_image env a s).1.denoiseOut)).map
          (fun v => Int.floor ((255/2 : ℚ) * (max (-1) (min 1 v) + 1)))
    ∧ ∀ b ∈ (generate_image env a s).1.img, 0 ≤ b ∧ b ≤ 255 := by
  refine ⟨rfl, fun b hb => ?_⟩
  have hb2 : b ∈ (env.decodeF ((generate_image env a s).1.denoiseOut)).map
      (fun v => Int.floor ((255/2 : ℚ) * (max (-1) (min 1 v) + 1))) := hb
  obtain ⟨v, _, rfl⟩ := List.mem_map.1 hb2
  exact clamp_byte_bounds v

/-- C6 witness: in the concrete environment the decoder yields the single
value 2, which the clamp maps to 1 and the rescale to the byte 255. -/
theorem claim_C6_bytes_witness :
    (255 : ℤ) ∈ (generate_image envEx argsEx stEx).1.img
    ∧ 0 ≤ (255 : ℤ) ∧ (255 : ℤ) ≤ 255 := by
  have hm : (255 : ℤ) ∈ (generate_image envEx argsEx stEx).1.img := by
    have he : (generate_image envEx argsEx stEx).1.img
        = [Int.floor ((255/2 : ℚ) * (max (-1) (min 1 (2 : ℚ)) + 1))] := rfl
    rw [he]
    norm_num [min_def, max_def]
  exact ⟨hm, (claim_C6_bytes envEx argsEx stEx).2 255 hm⟩

/-- C9: with a reference image supplied, the conditional identity embedding
is computed from the resized image, whose long edge is bounded by 1024. -/
theorem claim_C9_resize (env : Env) (a : GenArgs) (s : FluxState)
    (hgt wdt : ℕ) (h : a.id_image = some (hgt, wdt)) :
    (generate_image env a s).1.idEmb
      = some (env.condEmbF (resize_numpy_image_long (hgt, wdt) 1024))
    ∧ max (resize_numpy_image_long (hgt, wdt) 1024).1
        (resize_numpy_image_long (hgt, wdt) 1024).2 ≤ 1024 := by
  refine ⟨?_, resize_numpy_image_long_bound (hgt, wdt) 1024⟩
  simp [generate_image, get_id_embedding, h]

/-- C9 witness: a concrete 2048 x 1024 reference image is downscaled before
extraction and its long edge fits the bound. -/
theorem claim_C9_resize_witness :
    (generate_image envEx argsImgEx stEx).1.idEmb
      = some (envEx.condEmbF (resize_numpy_image_long (2048, 1024) 1024))
    ∧ max (resize_numpy_image_long (2048, 1024) 1024).1
        (resize_numpy_image_long (2048, 1024) 1024).2 ≤ 1024 :=
  claim_C9_resize envEx argsImgEx stEx 2048 1024 rfl

/-- C1: the negative prompt is encoded into a second Conditioning Bundle
exactly when |true_cfg − 1| > 0.01; that bundle (and the CFG start step)
is what reaches the denoising loop; and when true_cfg is within 0.01 of 1
no negative bundle exists, the negative conditioning passed to `denoise`
is entirely absent, the whole request coincides with the same request run
with true_cfg = 1, and the denoised latent equals the positive-only
output. -/
theorem claim_C1_true_cfg (env : Env) (a : GenArgs) (s : FluxState) :
    ((generate_image env a s).1.negBundle.isSome ↔ 1/100 < |a.true_cfg - 1|)
    ∧ (generate_image env a s).1.denoiseNeg
        = ((generate_image env a s).1.negBundle.map Bundle.txt,
           (generate_image env a s).1.negBundle.map Bundle.txt_ids,
           (generate_image env a s).1.negBundle.map Bundle.vec)
    ∧ (generate_image env a s).1.denoiseCfgStart = a.timestep_to_start_cfg
    ∧ (|a.true_cfg - 1| ≤ 1/100 →
        (generate_image env a s).1.negBundle = none
        ∧ (generate_image env a s).1.denoiseNeg = (none, none, none)
        ∧ generate_image env a s = generate_image env { a with true_cfg := 1 } s
        ∧ (generate_image env a s).1.denoiseOut
            = denoise_pos_only env.model ((generate_image env a s).1.noise)
                (env.prepareF a.max_sequence_length
                  ((generate_image env a s).1.noise) a.prompt)
                (get_schedule a.num_steps (env.seqLenF a.height a.width) true)
                a.guidance ((generate_image env a s).1.idEmb) a.id_weight
                a.start_step) := by
  refine ⟨?_, rfl, rfl, fun h => ?_⟩
  · cases hc : use_true_cfg a.true_cfg
    · have := (use_true_cfg_eq_false_iff a.true_cfg).mp hc
      simp [generate_image, hc]
      linarith
    · have := (use_true_cfg_eq_true_iff a.true_cfg).mp hc
      simp [generate_image, hc]
      linarith
  · have hc : use_true_cfg a.true_cfg = false :=
      (use_true_cfg_eq_false_iff a.true_cfg).mpr h
    have hc1 : use_true_cfg 1 = false := by
      simp [use_true_cfg]
    refine ⟨by simp [generate_image, hc], by simp [generate_image, hc], ?_, ?_⟩
    · simp only [generate_image, hc, hc1]
      rw [denoise_eq_pos_only _ _ _ _ _ _ _ _ _ _ _ _ _ _ hc,
          denoise_eq_pos_only _ _ _ _ _ _ _ _ _ _ _ _ _ _ hc1]
    · have hml : (if s.offload = true
          then { s with t5.max_length := a.max_sequence_length,
                        t5.device := Device.cuda, clip.device := Device.cuda }
          else { s with t5.max_length := a.max_sequence_length }).t5.max_length
          = a.max_sequence_length := by
        cases s.offload <;> simp
      simp only [generate_image, hc]
      rw [denoise_eq_pos_only _ _ _ _ _ _ _ _ _ _ _ _ _ _ hc]
      cases hs : s.offload <;> simp

/-- C1 witness: a concrete request with true_cfg = 1 never encodes the
negative prompt, passes no negative conditioning, and coincides with the
positive-only run. -/
theorem claim_C1_true_cfg_witness :
    (generate_image envEx argsEx stEx).1.negBundle = none
    ∧ (generate_image envEx argsEx stEx).1.denoiseNeg = (none, none, none)
    ∧ generate_image envEx argsEx stEx
        = generate_image envEx { argsEx with true_cfg := 1 } stEx
    ∧ (generate_image envEx argsEx stEx).1.denoiseOut
        = denoise_pos_only envEx.model ((generate_image envEx argsEx stEx).1.noise)
            (envEx.prepareF argsEx.max_sequence_length
              ((generate_image envEx argsEx stEx).1.noise) argsEx.prompt)
            (get_schedule argsEx.num_steps
              (envEx.seqLenF argsEx.height argsEx.width) true)
            argsEx.guidance ((generate_image envEx argsEx stEx).1.idEmb)
            argsEx.id_weight argsEx.start_step :=
  (claim_C1_true_cfg envEx argsEx stEx).2.2.2 (by norm_num [argsEx])

/-- C4: two requests without a reference image that differ only in
`start_step` and `id_weight` produce the identical output image. -/
theorem claim_C4_no_id_independence (env : Env) (s : FluxState) (a : GenArgs)
    (ss1 ss2 : ℕ) (w1 w2 : ℚ) (h : a.id_image = none) :
    (generate_image env { a with start_step := ss1, id_weight := w1 } s).1.img
      = (generate_image env { a with start_step := ss2, id_weight := w2 } s).1.img := by
  simp [generate_image, h]
  rw [denoise_id_none]

/-- C4 witness: two concrete requests without a reference image differing
in start_step (0 vs 5) and id_weight (1 vs 2) yield the same image. -/
theorem claim_C4_no_id_independence_witness :
    (generate_image envEx { argsEx with start_step := 0, id_weight := 1 } stEx).1.img
      = (generate_image envEx { argsEx with start_step := 5, id_weight := 2 } stEx).1.img :=
  claim_C4_no_id_independence envEx stEx argsEx 0 5 1 2 rfl

/-- C7 counterexample: with offload enabled, the trace ends with a
relocation (decoder to CPU) that comes after the decoding stage, hence
after every defined relocation point; so the relocations do not happen at
exactly the three defined points of the claim. -/
theorem claim_C7_counterexample :
    (generate_image envEx argsEx stOnEx).1.trace.getLast?
        = some (Ev.move .aeDecoder .cpu)
    ∧ Ev.decodeEv ∈ (generate_image envEx argsEx stOnEx).1.trace.dropLast := by
  have hc : use_true_cfg argsEx.true_cfg = false := by
    simp [use_true_cfg, argsEx]
  have ht : (generate_image envEx argsEx stOnEx).1.trace
      = [Ev.move .t5 .cuda, Ev.move .clip .cuda, Ev.prepareEv argsEx.prompt,
         Ev.move .t5 .cpu, Ev.move .clip .cpu, Ev.move .model .cuda,
         Ev.denoiseEv, Ev.move .model .cpu, Ev.move .aeDecoder .cuda,
         Ev.decodeEv, Ev.move .aeDecoder .cpu] := by
    simp [generate_image, hc, stOnEx]
  rw [ht]
  constructor
  · rfl
  · simp

/-- C7 (amended): with offload enabled the full event trace is sequential
and fixed: text encoders to the accelerator, then conditioning (positive
and, when true CFG is active, negative), then text encoders to CPU and the
denoiser to the accelerator, then denoising, then the denoiser to CPU and
the decoder to the accelerator, then decoding, and finally the decoder
back to CPU; in particular each listed relocation completes before the
stage that reads the relocated handle. -/
theorem claim_C7_offload_trace (env : Env) (a : GenArgs) (s : FluxState)
    (h : s.offload = true) :
    (generate_image env a s).1.trace
      = [Ev.move .t5 .cuda, Ev.move .clip .cuda, Ev.prepareEv a.prompt]
        ++ (if use_true_cfg a.true_cfg then [Ev.prepareEv a.neg_prompt] else [])
        ++ [Ev.move .t5 .cpu, Ev.move .clip .cpu, Ev.move .model .cuda,
            Ev.denoiseEv, Ev.move .model .cpu, Ev.move .aeDecoder .cuda,
            Ev.decodeEv, Ev.move .aeDecoder .cpu] := by
  cases hc : use_true_cfg a.true_cfg <;> simp [generate_image, h, hc]

/-- C7 witness: the amended trace shape holds on a concrete offloading
request. -/
theorem claim_C7_offload_trace_witness :
    (generate_image envEx argsEx stOnEx).1.trace
      = [Ev.move .t5 .cuda, Ev.move .clip .cuda, Ev.prepareEv argsEx.prompt]
        ++ (if use_true_cfg argsEx.true_cfg then [Ev.prepareEv argsEx.neg_prompt]
            else [])
        ++ [Ev.move .t5 .cpu, Ev.move .clip .cpu, Ev.move .model .cuda,
            Ev.denoiseEv, Ev.move .model .cpu, Ev.move .aeDecoder .cuda,
            Ev.decodeEv, Ev.move .aeDecoder .cpu] :=
  claim_C7_offload_trace envEx argsEx stOnEx rfl

/-- C8 counterexample: a request whose `max_sequence_length` differs from
the stored T5 `max_length` mutates that non-device field of the T5 handle,
so device placement is not the only mutable aspect of the model handles. -/
theorem claim_C8_counterexample :
    (generate_image envEx argsEx stEx).2.t5.max_length
      ≠ stEx.t5.max_length := by
  simp [generate_image, stEx, FluxGenerator.init, get_models, argsEx]

/-- C8 (amended): across any request, the opaque payloads of all four model
handles and the offload flag are unchanged (the handles are never
reloaded), and the only non-device mutation is the T5 `max_length` field,
which is set to the request's `max_sequence_length`. -/
theorem claim_C8_state_frame (env : Env) (a : GenArgs) (s : FluxState) :
    (generate_image env a s).2.t5.params = s.t5.params
    ∧ (generate_image env a s).2.clip.params = s.clip.params
    ∧ (generate_image env a s).2.model.params = s.model.params
    ∧ (generate_image env a s).2.ae_decoder.params = s.ae_decoder.params
    ∧ (generate_image env a s).2.offload = s.offload
    ∧ (generate_image env a s).2.t5.max_length = a.max_sequence_length := by
  cases h : s.offload <;> simp [generate_image, h]

/-- C10: the startup state built by `FluxGenerator.__init__` has
`offload = false`; and for any request processed from a state with
`offload = false` (which `generate_image` never changes), the final state
differs from the initial one only in the T5 `max_length` assignment — in
particular every handle keeps its device placement — and the trace
contains no relocation event. -/
theorem claim_C10_offload_false (t5p clipp mp aep : ℕ) (env : Env)
    (a : GenArgs) (s : FluxState) (h : s.offload = false) :
    (FluxGenerator.init t5p clipp mp aep).offload = false
    ∧ (generate_image env a s).2
        = { s with t5.max_length := a.max_sequence_length }
    ∧ ((generate_image env a s).1.trace.all (fun e => ! e.isMove)) = true := by
  refine ⟨rfl, ?_, ?_⟩
  · simp [generate_image, h]
  · have ht : (generate_image env a s).1.trace
        = [Ev.prepareEv a.prompt]
          ++ (if use_true_cfg a.true_cfg then [Ev.prepareEv a.neg_prompt] else [])
          ++ [Ev.denoiseEv, Ev.decodeEv] := by
      cases hc : use_true_cfg a.true_cfg <;> simp [generate_image, h, hc]
    rw [ht]
    cases hc : use_true_cfg a.true_cfg <;> simp [hc, Ev.isMove]

/-- C10 witness: the concrete startup state has the offload flag off, and
a concrete request from it only updates the T5 `max_length`. -/
theorem claim_C10_offload_false_witness :
    (FluxGenerator.init 0 1 2 3).offload = false
    ∧ (generate_image envEx argsEx stEx).2
        = { stEx with t5.max_length := argsEx.max_sequence_length } :=
  ⟨(claim_C10_offload_false 0 1 2 3 envEx argsEx stEx rfl).1,
   (claim_C10_offload_false 0 1 2 3 envEx argsEx stEx rfl).2.1⟩
